import Mathlib

/-!
Shallow embedding of `src/canslim_screener.py` (class `CANSLIMScreener`).

Conventions of the embedding:
* A pandas column of floats is modelled as `List ℚ` in chronological order;
  a price DataFrame row (one trading session) is a `Bar` carrying the two
  columns the code reads, `Close` and `Volume`.
* Python decimal literals (`0.05`, `0.15`, `0.95`) are modelled as the exact
  rationals `5/100`, `15/100`, `95/100`.
* `series.iloc[i]` (with Python negative indexing) is modelled by `iloc`,
  returning `none` exactly when pandas raises `IndexError`.
* A division whose denominator is zero has no defined rational value in the
  source (it raises `ZeroDivisionError` for Python floats, or yields a
  non-finite float for numpy dtypes); such a computation is modelled as
  `none` ("undefined"), never as a fallback number.
* `screen_stock` returns `Option (Option ScreenResult)`: the outer `none`
  means the evaluation is undefined (an exception escapes, or the value is
  dtype-dependent non-finite float arithmetic); `some none` is the code's
  `return None` ("no match"); `some (some r)` is an emitted pass record.
-/

/-- One row of a price DataFrame: the `Close` and `Volume` columns, the only
two the screener reads. -/
structure Bar where
  close : ℚ
  volume : ℚ
deriving DecidableEq

/-- The per-ticker fundamental data consumed by the screener: the
`quarterly_earnings['Earnings']` column, the annual `Earnings` column,
`sharesOutstanding`, and `heldPercentInstitutions * 100`. -/
structure FundamentalSnapshot where
  quarterly_earnings : List ℚ
  annual_earnings : List ℚ
  shares_out : ℤ
  institutional_own : ℚ
deriving DecidableEq

/-- The dict returned by `screen_stock` when a ticker passes every filter. -/
structure ScreenResult where
  ticker : String
  q_eps_growth : ℚ
  a_eps_growth : ℚ
  shares_out : ℤ
  institutional_own : ℚ
  has_base_on_base : Bool
deriving DecidableEq

/-- `series.iloc[i]` with Python semantics: a negative `i` counts from the
end (`len + i`); an out-of-range position is an `IndexError`, modelled as
`none`. -/
def iloc (l : List ℚ) (i : ℤ) : Option ℚ :=
  if 0 ≤ i then l[i.toNat]?
  else if (-i).toNat ≤ l.length then l[l.length - (-i).toNat]?
  else none

/-- Python `abs()` on a rational value. -/
def pyabs (q : ℚ) : ℚ := if q < 0 then -q else q

/-- One growth step `(cur - prev) / abs(prev) * 100` as written in
`fetch_financials`, `check_accelerating_earnings` and `check_deceleration`.
A zero `prev` leaves the expression with no defined rational value
(`ZeroDivisionError` or a non-finite float, by dtype), modelled as `none`.
Note `q_eps_growth` alone guards this case with its own `if prev != 0`. -/
def growth_rate (prev cur : ℚ) : Option ℚ :=
  if prev = 0 then none else some ((cur - prev) / pyabs prev * 100)

/-- The comprehension body
`(e.iloc[i] - e.iloc[i-1]) / abs(e.iloc[i-1]) * 100` at index `i`. -/
def growth_at (qe : List ℚ) (i : ℤ) : Option ℚ :=
  match iloc qe i, iloc qe (i - 1) with
  | some cur, some prev => growth_rate prev cur
  | _, _ => none

/-- Lines 21-25 of `fetch_financials`: quarterly EPS growth over the two most
recent entries, `0` when `prev == 0` or when the series has at most one
entry. -/
def q_eps_growth (qe : List ℚ) : ℚ :=
  if 1 < qe.length then
    match iloc qe (-1), iloc qe (-2) with
    | some latest, some prev =>
        if prev ≠ 0 then (latest - prev) / pyabs prev * 100 else 0
    | _, _ => 0
  else 0

/-- Lines 27-31 of `fetch_financials`: with at least 3 annual entries, take
the last 3 values, form the two consecutive year-over-year growths and return
their mean (`np.mean`); otherwise `0`.  There is no zero-denominator guard
here, so a zero among the two divisors makes the value undefined (`none`).
The final catch-all arm is unreachable under the length guard. -/
def a_eps_growth (ae : List ℚ) : Option ℚ :=
  if 3 ≤ ae.length then
    match ae.drop (ae.length - 3) with
    | [v0, v1, v2] =>
        match growth_rate v0 v1, growth_rate v1 v2 with
        | some g1, some g2 => some ((g1 + g2) / 2)
        | _, _ => none
    | _ => none
  else some 0

/-- `check_accelerating_earnings` (lines 52-56): `False` below 3 entries;
otherwise the growths at positions `-2` and `-1`, passing iff the latest
exceeds the prior AND the latest exceeds 25.  `none` models an exception
or dtype-dependent non-finite arithmetic inside the comprehension. -/
def check_accelerating_earnings (qe : List ℚ) : Option Bool :=
  if qe.length < 3 then some false
  else
    match growth_at qe (-2), growth_at qe (-1) with
    | some g2, some g1 => some (decide (g1 > g2) && decide (g1 > 25))
    | _, _ => none

/-- `check_deceleration` (lines 58-62): `False` below 3 entries; otherwise
the growths at positions `-3`, `-2`, `-1` — note the growth at `-3` reads
`iloc[-4]`, so a series of exactly 3 entries raises `IndexError` (`none`).
Passes iff the growths strictly decrease across both comparisons AND the
latest growth is below 15. -/
def check_deceleration (qe : List ℚ) : Option Bool :=
  if qe.length < 3 then some false
  else
    match growth_at qe (-3), growth_at qe (-2), growth_at qe (-1) with
    | some g3, some g2, some g1 =>
        some (decide (g1 < g2) && decide (g2 < g3) && decide (g1 < 15))
    | _, _, _ => none

/-- Python `max(...)` over a list of closes; only ever applied to a non-empty
list in the source (Python `max([])` raises). -/
def pymax : List ℚ → ℚ
  | [] => 0
  | c :: cs => cs.foldl max c

/-- Python `min(...)` over a list of closes. -/
def pymin : List ℚ → ℚ
  | [] => 0
  | c :: cs => cs.foldl min c

/-- The last element of a `Close` column, `series.iloc[-1]`; only read on
non-empty series in the source. -/
def lastClose (d : List Bar) : ℚ :=
  ((d.map Bar.close).getLast?).getD 0

/-- `price_data['Close'].max()` on a non-empty series. -/
def maxClose (d : List Bar) : ℚ :=
  pymax (d.map Bar.close)

/-- The elementwise ratio `(stock['Close'] / market['Close']) * 100` of
line 67.  The two frames are index-aligned, so mismatched lengths (pandas
would pad with NaN) and a zero benchmark close (a non-finite float) are both
modelled as undefined (`none`). -/
def ratio_list : List Bar → List Bar → Option (List ℚ)
  | [], [] => some []
  | p :: ps, m :: ms =>
      if m.close = 0 then none
      else
        match ratio_list ps ms with
        | some rest => some (p.close / m.close * 100 :: rest)
        | none => none
  | _, _ => none

/-- `relative_strength` (lines 64-68): `False` when either frame is empty;
otherwise the latest ratio must strictly exceed the mean ratio over the whole
window. -/
def relative_strength (stock_data market_data : List Bar) : Option Bool :=
  if stock_data = [] ∨ market_data = [] then some false
  else
    match ratio_list stock_data market_data with
    | some rs => some (decide (rs.getLast?.getD 0 > rs.sum / (rs.length : ℚ)))
    | none => none

/-- `Close.pct_change()`: first row has no prior close (NaN, modelled
`none`); each later row is `(cur - prev) / prev`; a zero previous close
yields a non-finite float whose `< -0.05` comparison is `False`, so it is
modelled `none` too (a `none` row is never selected by a mask below). -/
def pct_changes : List ℚ → List (Option ℚ)
  | [] => []
  | c :: rest =>
      none :: (List.zip (c :: rest) rest).map
        (fun pr => if pr.1 = 0 then none else some ((pr.2 - pr.1) / pr.1))

/-- The boolean row mask `data['Close'].pct_change() < -0.05` of line 87.
An undefined pct-change (NaN / non-finite) compares `False`. -/
def pullback_mask (d : List Bar) : List Bool :=
  (pct_changes (d.map Bar.close)).map
    (fun pc =>
      match pc with
      | some q => decide (q < -(5/100 : ℚ))
      | none => false)

/-- The rows selected by the mask: `data[data['Close'].pct_change() < -0.05]`. -/
def pullbacks (d : List Bar) : List Bar :=
  ((d.zip (pullback_mask d)).filter (fun bp => bp.2)).map Prod.fst

/-- `data['Volume'].mean()`. -/
def mean_volume (d : List Bar) : ℚ :=
  (d.map Bar.volume).sum / (d.length : ℚ)

/-- `volume_dry_up` (lines 84-91): empty frame → `False`; no pullback rows →
`True`; otherwise every pullback row's volume must be strictly below the mean
volume of the entire series. -/
def volume_dry_up (d : List Bar) : Bool :=
  if d = [] then false
  else if pullbacks d = [] then true
  else (pullbacks d).all (fun b => decide (b.volume < mean_volume d))

/-- The loop indices `range(20, len(data), 20)` of line 76: multiples of the
window size from 20 up to but excluding `len(data)`. -/
def window_starts (n : Nat) : List Nat :=
  (List.range n).filter (fun i => 20 ≤ i && (i - 20) % 20 == 0)

/-- The window test of line 78:
`max(slice['Close']) - min(slice['Close']) < 0.15 * min(slice['Close'])`. -/
def is_consolidation (w : List Bar) : Bool :=
  decide (pymax (w.map Bar.close) - pymin (w.map Bar.close)
            < (15/100 : ℚ) * pymin (w.map Bar.close))

/-- The `consolidations` list built by the loop of lines 76-81: one boolean
per slice `data.iloc[i-window:i]`, in scan order. -/
def consolidation_windows (d : List Bar) : List Bool :=
  (window_starts d.length).map
    (fun i => is_consolidation ((d.drop (i - 20)).take 20))

/-- The boolean returned by `detect_base_on_base` (lines 70-82): empty frame
→ `False`; otherwise at least two windows and the two most recent window
flags (`consolidations[-1]`, `consolidations[-2]`) both set. -/
def detect_base_on_base (d : List Bar) : Bool :=
  if d = [] then false
  else
    let cons := consolidation_windows d
    decide (2 ≤ cons.length) && cons.getLast?.getD false
      && (cons[cons.length - 2]?).getD false

/-- A price DataFrame as an object: its rows plus the presence/contents of
the derived `pct_change` column (absent, `none`, until someone assigns it). -/
structure StockFrame where
  rows : List Bar
  pct_change : Option (List (Option ℚ)) := none
deriving DecidableEq

/-- `detect_base_on_base` with its store effect: line 73 assigns
`data['pct_change'] = data['Close'].pct_change()`, adding a column to the
caller's frame (the empty-frame guard returns before the assignment).  The
returned flag itself only reads `Close`. -/
def detect_base_on_base_run (d : StockFrame) : Bool × StockFrame :=
  if d.rows = [] then (false, d)
  else
    (detect_base_on_base d.rows,
     { d with pct_change := some (pct_changes (d.rows.map Bar.close)) })

/-- `market_data['Close'].rolling(200).mean().iloc[-1]`: the mean of the last
200 closes when at least 200 rows exist; otherwise pandas yields NaN,
modelled `none`. -/
def rolling_mean_200_last (closes : List ℚ) : Option ℚ :=
  if 200 ≤ closes.length then
    some ((closes.drop (closes.length - 200)).sum / 200)
  else none

/-- The rejection comparison of line 122,
`market_data['Close'].iloc[-1] < rolling(200).mean().iloc[-1]`.  When the
rolling mean is NaN (fewer than 200 bars) the `<` comparison is `False`, so
the test cannot trigger — the market filter fails open. -/
def below_200sma (m : List Bar) : Bool :=
  match rolling_mean_200_last (m.map Bar.close) with
  | some r => decide (lastClose m < r)
  | none => false

/-- Lines 119-134 of `screen_stock`: the cascade from the institutional
ownership filter on (reached only after the relative-strength filter
passed). -/
def screen_tail (ticker : String) (snap : FundamentalSnapshot) (ag : ℚ)
    (price_data market_data : List Bar) : Option (Option ScreenResult) :=
  if snap.institutional_own < 30 then some none
  else if market_data = [] ∨ below_200sma market_data then some none
  else
    some (some
      { ticker := ticker
        q_eps_growth := q_eps_growth snap.quarterly_earnings
        a_eps_growth := ag
        shares_out := snap.shares_out
        institutional_own := snap.institutional_own
        has_base_on_base := detect_base_on_base price_data })

/-- Lines 105-117 of `screen_stock`: the cascade from the annual-growth
filter on (reached only after criterion 1 passed). -/
def screen_mid (ticker : String) (snap : FundamentalSnapshot) (ag : ℚ)
    (price_data market_data : List Bar) : Option (Option ScreenResult) :=
  if ag < 25 then some none
  else if price_data = [] ∨
      lastClose price_data < maxClose price_data * (95/100) then some none
  else if (200000000 : ℤ) < snap.shares_out then some none
  else if volume_dry_up price_data = false then some none
  else
    match relative_strength price_data market_data with
    | none => none
    | some false => some none
    | some true => screen_tail ticker snap ag price_data market_data

/-- Lines 102-103 of `screen_stock`: the short-circuit criterion-1 test
`q_eps_growth < 25 or check_deceleration(...)`. -/
def screen_head (ticker : String) (snap : FundamentalSnapshot) (ag : ℚ)
    (price_data market_data : List Bar) : Option (Option ScreenResult) :=
  if q_eps_growth snap.quarterly_earnings < 25 then some none
  else
    match check_deceleration snap.quarterly_earnings with
    | none => none
    | some true => some none
    | some false => screen_mid ticker snap ag price_data market_data

/-- `screen_stock` (lines 93-134) on already-fetched data.  The metric
derivation of `fetch_financials` (quarterly and annual growth) happens before
the cascade; an undefined annual growth is an undefined run (outer `none`).
Each `return None` of the source is `some none`; the final dict is
`some (some r)`. -/
def screen_stock (ticker : String) (snap : FundamentalSnapshot)
    (price_data market_data : List Bar) : Option (Option ScreenResult) :=
  match a_eps_growth snap.annual_earnings with
  | none => none
  | some ag => screen_head ticker snap ag price_data market_data

/-- Criterion 1 of the cascade: quarterly EPS growth at least 25 and the
deceleration check defined and negative. -/
def crit1 (snap : FundamentalSnapshot) : Bool :=
  decide (25 ≤ q_eps_growth snap.quarterly_earnings)
    && (check_deceleration snap.quarterly_earnings == some false)

/-- Criterion 2: annual EPS growth defined and at least 25. -/
def crit2 (snap : FundamentalSnapshot) : Bool :=
  match a_eps_growth snap.annual_earnings with
  | some ag => decide (25 ≤ ag)
  | none => false

/-- Criterion 3: price series non-empty and latest close within 5% of the
window high. -/
def crit3 (p : List Bar) : Bool :=
  decide (p ≠ []) && decide (maxClose p * (95/100) ≤ lastClose p)

/-- Criterion 4: shares outstanding at most 200,000,000. -/
def crit4 (snap : FundamentalSnapshot) : Bool :=
  decide (snap.shares_out ≤ (200000000 : ℤ))

/-- Criterion 5: volume dry-up. -/
def crit5 (p : List Bar) : Bool := volume_dry_up p

/-- Criterion 6: relative strength defined and positive. -/
def crit6 (p m : List Bar) : Bool := relative_strength p m == some true

/-- Criterion 7: institutional ownership at least 30. -/
def crit7 (snap : FundamentalSnapshot) : Bool :=
  decide (30 ≤ snap.institutional_own)

/-- Criterion 8 as implemented: benchmark non-empty and the line-122
comparison not triggering (which, with fewer than 200 bars, it never does). -/
def crit8 (m : List Bar) : Bool :=
  decide (m ≠ []) && !(below_200sma m)

/-- The conjunction of the eight implemented criteria, stated without any
evaluation order. -/
def all_criteria (snap : FundamentalSnapshot) (p m : List Bar) : Bool :=
  crit1 snap && crit2 snap && crit3 p && crit4 snap
    && crit5 p && crit6 p m && crit7 snap && crit8 m

/-- The record `screen_stock` emits when every filter passes. -/
def mk_result (ticker : String) (snap : FundamentalSnapshot)
    (p : List Bar) : ScreenResult :=
  { ticker := ticker
    q_eps_growth := q_eps_growth snap.quarterly_earnings
    a_eps_growth := (a_eps_growth snap.annual_earnings).getD 0
    shares_out := snap.shares_out
    institutional_own := snap.institutional_own
    has_base_on_base := detect_base_on_base p }

theorem pyabs_eq_abs (q : ℚ) : pyabs q = |q| := by
  unfold pyabs
  rcases lt_or_le q 0 with h | h
  · rw [if_pos h, abs_of_neg h]
  · rw [if_neg (not_lt.mpr h), abs_of_nonneg h]

/-- Python negative indexing only looks at a suffix long enough to contain
the accessed position. -/
theorem iloc_append (l₁ l₂ : List ℚ) (k : ℕ) (h1 : 1 ≤ k) (h2 : k ≤ l₂.length) :
    iloc (l₁ ++ l₂) (-(k : ℤ)) = iloc l₂ (-(k : ℤ)) := by
  unfold iloc
  have hk0 : ¬ (0 ≤ -(k : ℤ)) := by omega
  have htn : (-(-(k : ℤ))).toNat = k := by omega
  rw [if_neg hk0, if_neg hk0, htn]
  have hlen : (l₁ ++ l₂).length = l₁.length + l₂.length := List.length_append _ _
  rw [hlen, if_pos (by omega), if_pos h2]
  have hidx : l₁.length + l₂.length - k = l₁.length + (l₂.length - k) := by omega
  rw [hidx, List.getElem?_append_right (by omega)]
  congr 1
  omega

/-- A negatively-indexed growth value only looks at a suffix long enough to
contain both accessed positions. -/
theorem growth_at_append (l s : List ℚ) (k : ℕ) (h1 : 1 ≤ k)
    (h2 : k + 1 ≤ s.length) :
    growth_at (l ++ s) (-(k : ℤ)) = growth_at s (-(k : ℤ)) := by
  unfold growth_at
  rw [show (-(k : ℤ) - 1) = -(((k + 1 : ℕ) : ℤ)) by push_cast; ring,
    iloc_append l s k h1 (by omega),
    iloc_append l s (k + 1) (by omega) h2]

/-- Claim C8: for a series with at least 2 entries, `q_eps_growth` is
`(latest - previous) / |previous| * 100` over the two most recent entries,
with a defined floor of `0` when the previous value is `0`; a series with
fewer than 2 entries yields `0`. -/
theorem q_eps_growth_spec :
    (∀ (l : List ℚ) (a b : ℚ),
      q_eps_growth (l ++ [a, b]) = if a = 0 then 0 else (b - a) / |a| * 100)
    ∧ q_eps_growth [] = 0 ∧ (∀ x : ℚ, q_eps_growth [x] = 0) := by
  refine ⟨?_, rfl, fun x => rfl⟩
  intro l a b
  unfold q_eps_growth
  rw [if_pos (by simp only [List.length_append, List.length_cons,
    List.length_nil]; omega)]
  rw [show (-1 : ℤ) = -((1 : ℕ) : ℤ) by norm_num,
    show (-2 : ℤ) = -((2 : ℕ) : ℤ) by norm_num,
    iloc_append l [a, b] 1 (by omega) (by simp),
    iloc_append l [a, b] 2 (by omega) (by simp)]
  have e1 : iloc [a, b] (-((1 : ℕ) : ℤ)) = some b := rfl
  have e2 : iloc [a, b] (-((2 : ℕ) : ℤ)) = some a := rfl
  rw [e1, e2]
  by_cases ha : a = 0
  · simp [ha]
  · simp [ha, pyabs_eq_abs]

/-- Claim C7: `volume_dry_up` is false on the empty series, and otherwise
true exactly when every pullback bar (day-over-day close change below -5%)
has volume strictly below the mean volume of the whole series — in
particular trivially true when there is no pullback bar, and false as soon
as one pullback bar's volume reaches the mean. -/
theorem volume_dry_up_spec (d : List Bar) :
    volume_dry_up d =
      (decide (d ≠ []) &&
        (pullbacks d).all (fun b => decide (b.volume < mean_volume d))) := by
  unfold volume_dry_up
  by_cases hd : d = []
  · simp [hd]
  · by_cases hp : pullbacks d = []
    · simp [hd, hp]
    · simp [hd, hp]

/-- Claim C10: the first row of the pullback mask is always `false` (its
day-over-day change is undefined), and `volume_dry_up` on any one-bar series
is `true`. -/
theorem first_bar_never_pullback (b : Bar) (rest : List Bar) :
    (pullback_mask (b :: rest)).head? = some false
    ∧ volume_dry_up [b] = true :=
  ⟨rfl, rfl⟩

/-- Claim C3 fails as stated: `check_deceleration` on a series of exactly 3
entries — admitted by its own length guard — reads `iloc[-4]` and raises
(no fallback value), and `a_eps_growth` applies no zero-denominator
fallback. -/
theorem growth_guard_counterexample :
    check_deceleration [1, 2, 3] = none ∧ a_eps_growth [0, 5, 10] = none :=
  ⟨rfl, rfl⟩

/-- Claim C3, amended: the growth computations are total with the documented
fallbacks only away from the two degenerate cases — below the length guards
everything falls back to `some false` / `some 0`, and the deceleration and
acceleration checks are defined (`some`) once the series extends at least one
entry past the guard minimum and the divisor entries are non-zero. -/
theorem growth_guard_amended :
    (∀ qe : List ℚ, qe.length < 3 →
      check_deceleration qe = some false
        ∧ check_accelerating_earnings qe = some false)
    ∧ (∀ ae : List ℚ, ae.length < 3 → a_eps_growth ae = some 0)
    ∧ (∀ (l : List ℚ) (a b c : ℚ), a ≠ 0 → b ≠ 0 →
        ∃ r : Bool, check_accelerating_earnings (l ++ [a, b, c]) = some r)
    ∧ (∀ (l : List ℚ) (a b c d : ℚ), a ≠ 0 → b ≠ 0 → c ≠ 0 →
        ∃ r : Bool, check_deceleration (l ++ [a, b, c, d]) = some r) := by
  refine ⟨fun qe h => ⟨?_, ?_⟩, fun ae h => ?_, ?_, ?_⟩
  · unfold check_deceleration; rw [if_pos h]
  · unfold check_accelerating_earnings; rw [if_pos h]
  · unfold a_eps_growth; rw [if_neg (by omega)]
  · intro l a b c ha hb
    unfold check_accelerating_earnings
    rw [if_neg (by simp only [List.length_append, List.length_cons,
      List.length_nil]; omega)]
    rw [show (-2 : ℤ) = -((2 : ℕ) : ℤ) by norm_num,
      show (-1 : ℤ) = -((1 : ℕ) : ℤ) by norm_num,
      growth_at_append l [a, b, c] 2 (by omega) (by simp),
      growth_at_append l [a, b, c] 1 (by omega) (by simp)]
    have e2 : growth_at [a, b, c] (-((2 : ℕ) : ℤ)) = growth_rate a b := rfl
    have e1 : growth_at [a, b, c] (-((1 : ℕ) : ℤ)) = growth_rate b c := rfl
    rw [e2, e1]
    unfold growth_rate
    rw [if_neg ha, if_neg hb]
    exact ⟨_, rfl⟩
  · intro l a b c d ha hb hc
    unfold check_deceleration
    rw [if_neg (by simp only [List.length_append, List.length_cons,
      List.length_nil]; omega)]
    rw [show (-3 : ℤ) = -((3 : ℕ) : ℤ) by norm_num,
      show (-2 : ℤ) = -((2 : ℕ) : ℤ) by norm_num,
      show (-1 : ℤ) = -((1 : ℕ) : ℤ) by norm_num,
      growth_at_append l [a, b, c, d] 3 (by omega) (by simp),
      growth_at_append l [a, b, c, d] 2 (by omega) (by simp),
      growth_at_append l [a, b, c, d] 1 (by omega) (by simp)]
    have e3 : growth_at [a, b, c, d] (-((3 : ℕ) : ℤ)) = growth_rate a b := rfl
    have e2 : growth_at [a, b, c, d] (-((2 : ℕ) : ℤ)) = growth_rate b c := rfl
    have e1 : growth_at [a, b, c, d] (-((1 : ℕ) : ℤ)) = growth_rate c d := rfl
    rw [e3, e2, e1]
    unfold growth_rate
    rw [if_neg ha, if_neg hb, if_neg hc]
    exact ⟨_, rfl⟩

/-- Witness for the amended claim C3 at concrete inputs. -/
theorem growth_guard_amended_witness :
    (∃ r : Bool, check_deceleration [(1 : ℚ), 2, 3, 4] = some r)
    ∧ (∃ r : Bool, check_accelerating_earnings [(1 : ℚ), 2, 3] = some r)
    ∧ check_deceleration [(1 : ℚ), 2] = some false
    ∧ a_eps_growth [(1 : ℚ)] = some 0 :=
  ⟨growth_guard_amended.2.2.2 [] 1 2 3 4 (by norm_num) (by norm_num)
      (by norm_num),
    growth_guard_amended.2.2.1 [] 1 2 3 (by norm_num) (by norm_num),
    (growth_guard_amended.1 [(1 : ℚ), 2] (by simp)).1,
    growth_guard_amended.2.1 [(1 : ℚ)] (by simp)⟩

/-- Claim C5 fails as stated: evaluating `detect_base_on_base` on a
non-empty frame is not frame-preserving — it stores a derived `pct_change`
column into its input. -/
theorem detect_base_on_base_mutates_input :
    (detect_base_on_base_run ⟨[⟨100, 10⟩], none⟩).2
      ≠ (⟨[⟨100, 10⟩], none⟩ : StockFrame) := by
  decide

/-- Claim C5, amended: `detect_base_on_base` never adds, removes or modifies
a bar of its input — the rows survive unchanged — and its boolean result is a
pure function of the input rows; the only frame effect is the stored derived
`pct_change` column. -/
theorem detect_base_on_base_run_spec (d : StockFrame) :
    (detect_base_on_base_run d).2.rows = d.rows
    ∧ (detect_base_on_base_run d).1 = detect_base_on_base d.rows := by
  unfold detect_base_on_base_run
  by_cases h : d.rows = []
  · rw [if_pos h]
    exact ⟨rfl, by unfold detect_base_on_base; rw [if_pos h]⟩
  · rw [if_neg h]
    exact ⟨rfl, rfl⟩

/-- On index-aligned frames with non-zero benchmark closes, the ratio series
is the elementwise `stock.close / market.close * 100`. -/
theorem ratio_list_eq (p m : List Bar) (hlen : p.length = m.length)
    (hm : ∀ bar ∈ m, bar.close ≠ 0) :
    ratio_list p m
      = some ((p.zip m).map fun pm => pm.1.close / pm.2.close * 100) := by
  induction p generalizing m with
  | nil =>
    cases m with
    | nil => rfl
    | cons x xs => simp at hlen
  | cons x xs ih =>
    cases m with
    | nil => simp at hlen
    | cons y ys =>
      have hy : y.close ≠ 0 := hm y (by simp)
      have hys : ∀ bar ∈ ys, bar.close ≠ 0 := fun bar hb => hm bar (by simp [hb])
      have hl : xs.length = ys.length := by simpa using hlen
      unfold ratio_list
      rw [if_neg hy, ih ys hl hys]
      simp

/-- Claim C9: `relative_strength` is false whenever either series is empty,
and on non-empty, equal-length, index-aligned series (with meaningful, i.e.
non-zero, benchmark closes) it is true exactly when the latest value of the
ratio series `stock.close / market.close * 100` strictly exceeds the mean of
that ratio series over the whole window. -/
theorem relative_strength_spec :
    (∀ m : List Bar, relative_strength [] m = some false)
    ∧ (∀ p : List Bar, relative_strength p [] = some false)
    ∧ ∀ (p m : List Bar), p ≠ [] → m ≠ [] → p.length = m.length →
        (∀ bar ∈ m, bar.close ≠ 0) →
        ∃ rs : List ℚ,
          rs = (p.zip m).map (fun pm => pm.1.close / pm.2.close * 100)
          ∧ relative_strength p m
              = some (decide (rs.getLast?.getD 0 > rs.sum / (rs.length : ℚ))) := by
  refine ⟨fun m => by simp [relative_strength], ?_, ?_⟩
  · intro p
    unfold relative_strength
    rw [if_pos (Or.inr rfl)]
  · intro p m hp hm hlen hm0
    refine ⟨_, rfl, ?_⟩
    unfold relative_strength
    rw [if_neg (by simp [hp, hm]), ratio_list_eq p m hlen hm0]

/-- Witness for claim C9 at a concrete pair of two-bar series. -/
theorem relative_strength_spec_witness :
    relative_strength [⟨100, 1⟩, ⟨110, 1⟩] [⟨50, 1⟩, ⟨50, 1⟩] = some true := by
  obtain ⟨rs, h1, h2⟩ :=
    relative_strength_spec.2.2 [⟨100, 1⟩, ⟨110, 1⟩] [⟨50, 1⟩, ⟨50, 1⟩]
      (by simp) (by simp) rfl (by decide)
  rw [h2, h1]
  with_unfolding_all rfl

/-- The loop indices of `detect_base_on_base` in closed form: the `k`-th
window (0-based) ends at index `20 * (k + 1)`, and the scan stops strictly
before `len(data)`. -/
theorem window_starts_eq (n : ℕ) :
    window_starts n = (List.range ((n - 1) / 20)).map (fun k => 20 * (k + 1)) := by
  induction n with
  | zero => rfl
  | succ n ih =>
    unfold window_starts at ih ⊢
    rw [List.range_succ, List.filter_append, ih]
    by_cases hn : (20 ≤ n ∧ (n - 20) % 20 = 0)
    · have hcond : (decide (20 ≤ n) && ((n - 20) % 20 == 0)) = true := by
        simp [hn.1, hn.2]
      have hdiv : (n + 1 - 1) / 20 = (n - 1) / 20 + 1 := by omega
      have hval : 20 * ((n - 1) / 20 + 1) = n := by omega
      rw [hdiv, List.range_succ, List.map_append]
      simp [hcond, hval]
    · have hcond : (decide (20 ≤ n) && ((n - 20) % 20 == 0)) = false := by
        rcases not_and_or.mp hn with h | h
        · simp [h]
        · simp [beq_iff_eq, h]
      have hdiv : (n + 1 - 1) / 20 = (n - 1) / 20 := by omega
      rw [hdiv]
      simp [hcond]

/-- Claim C4 fails as stated: a 40-bar series — an exact multiple of the
20-bar window whose closes are all flat — produces a single window, not
`40 / 20 = 2`, and `detect_base_on_base` returns false on it even though both
20-bar halves are tight. -/
theorem base_on_base_window_counterexample :
    (consolidation_windows (List.replicate 40 (⟨100, 10⟩ : Bar))).length = 1
    ∧ (40 : ℕ) / 20 = 2
    ∧ detect_base_on_base (List.replicate 40 (⟨100, 10⟩ : Bar)) = false := by
  refine ⟨by decide, by decide, ?_⟩
  with_unfolding_all decide

/-- Claim C4, amended: the scan runs front-to-back over the window end
indices `20, 40, ...` strictly below the series length, so a series of
length `n` yields `(n - 1) / 20` full windows — one fewer than `n / 20` when
`n` is an exact positive multiple of 20, the final full window being
discarded along with any trailing partial one.  Each window is flagged a
consolidation iff `max close - min close < 0.15 * min close`, the result is
true iff at least 2 windows exist and the two most recent are both flagged,
and any series shorter than 41 bars yields false. -/
theorem base_on_base_amended :
    (∀ d : List Bar,
      consolidation_windows d
        = (List.range ((d.length - 1) / 20)).map
            (fun k => is_consolidation ((d.drop (20 * k)).take 20)))
    ∧ (∀ d : List Bar, (consolidation_windows d).length = (d.length - 1) / 20)
    ∧ (∀ d : List Bar,
        detect_base_on_base d
          = (decide (2 ≤ (consolidation_windows d).length)
              && (consolidation_windows d).getLast?.getD false
              && ((consolidation_windows d)[(consolidation_windows d).length - 2]?).getD
                  false))
    ∧ (∀ d : List Bar, d.length < 41 → detect_base_on_base d = false) := by
  have hwin : ∀ d : List Bar,
      consolidation_windows d
        = (List.range ((d.length - 1) / 20)).map
            (fun k => is_consolidation ((d.drop (20 * k)).take 20)) := by
    intro d
    unfold consolidation_windows
    rw [window_starts_eq, List.map_map]
    refine List.map_congr_left fun k _ => ?_
    simp only [Function.comp_apply]
    congr 2
  have hlen : ∀ d : List Bar,
      (consolidation_windows d).length = (d.length - 1) / 20 := by
    intro d
    rw [hwin d]
    simp
  have hdet : ∀ d : List Bar,
      detect_base_on_base d
        = (decide (2 ≤ (consolidation_windows d).length)
            && (consolidation_windows d).getLast?.getD false
            && ((consolidation_windows d)[(consolidation_windows d).length - 2]?).getD
                false) := by
    intro d
    unfold detect_base_on_base
    by_cases h : d = []
    · subst h
      rfl
    · rw [if_neg h]
  refine ⟨hwin, hlen, hdet, fun d h => ?_⟩
  rw [hdet d]
  have : (consolidation_windows d).length < 2 := by
    rw [hlen d]; omega
  have h2 : decide (2 ≤ (consolidation_windows d).length) = false := by
    simpa using this
  rw [h2]
  rfl

/-- Witness for the amended claim C4: a one-bar series is below every
threshold and yields false. -/
theorem base_on_base_amended_witness :
    detect_base_on_base [(⟨100, 10⟩ : Bar)] = false :=
  base_on_base_amended.2.2.2 [⟨100, 10⟩] (by simp)

/-- Claim C6: a decelerating quarterly series forces "no match" at
criterion 1 — for any quarterly growth, so in particular for one at or above
25.  (With the deceleration test defined, the latest growth rate equals the
quarterly growth and is below 15, so the combination in the claim is in fact
never reachable; the rejection holds a fortiori without assuming growth at
least 25.)  The annual-growth side condition only excludes the modelled
undefined run. -/
theorem deceleration_forces_no_match (t : String) (snap : FundamentalSnapshot)
    (p m : List Bar) (ha : a_eps_growth snap.annual_earnings ≠ none)
    (hd : check_deceleration snap.quarterly_earnings = some true) :
    screen_stock t snap p m = some none := by
  rcases hA : a_eps_growth snap.annual_earnings with _ | ag
  · exact absurd hA ha
  · have e0 : screen_stock t snap p m = screen_head t snap ag p m := by
      unfold screen_stock; rw [hA]
    rw [e0]
    unfold screen_head
    by_cases h1 : q_eps_growth snap.quarterly_earnings < 25
    · rw [if_pos h1]
    · rw [if_neg h1, hd]

/-- Witness for claim C6: the growth sequence 10%, 8%, 5% is decelerating
with latest growth below 15, and screening such a snapshot yields
"no match". -/
theorem deceleration_forces_no_match_witness :
    screen_stock "C" ⟨[100, 110, 594/5, 6237/50], [10, 15, 20], 50000000, 35⟩
      [] [] = some none :=
  deceleration_forces_no_match "C"
    ⟨[100, 110, 594/5, 6237/50], [10, 15, 20], 50000000, 35⟩ [] []
    (by with_unfolding_all decide) (by with_unfolding_all decide)

/-- Claim C1 fails as stated: a snapshot whose quarterly series has exactly
3 entries and quarterly growth at least 25 makes `screen_stock` raise (the
deceleration check's `iloc[-4]`), so the screen does not always return a
result-or-no-match. -/
theorem screen_stock_can_raise :
    screen_stock "X" ⟨[1, 2, 10], [10, 15, 20], 50000000, 35⟩ [] [] = none := by
  with_unfolding_all rfl

/-- Claim C1, amended: on every run that raises no error, `screen_stock`
returns a `ScreenResult` exactly when all 8 implemented criteria hold
simultaneously, and "no match" (not an error) otherwise; since the outcome
is characterised by the plain conjunction `all_criteria`, it does not depend
on the order in which the criteria are evaluated. -/
theorem screen_stock_characterization (t : String) (snap : FundamentalSnapshot)
    (p m : List Bar) (h : screen_stock t snap p m ≠ none) :
    screen_stock t snap p m =
      if all_criteria snap p m then some (some (mk_result t snap p))
      else some none := by
  rcases hA : a_eps_growth snap.annual_earnings with _ | ag
  · exact absurd (by unfold screen_stock; rw [hA]) h
  · have e0 : screen_stock t snap p m = screen_head t snap ag p m := by
      unfold screen_stock; rw [hA]
    rw [e0] at h ⊢
    unfold screen_head at h ⊢
    by_cases h1 : q_eps_growth snap.quarterly_earnings < 25
    · rw [if_pos h1]
      have hc : all_criteria snap p m = false := by
        simp [all_criteria, crit1, not_le.mpr h1]
      simp [hc]
    · rw [if_neg h1] at h ⊢
      rcases hD : check_deceleration snap.quarterly_earnings with _ | bD
      · rw [hD] at h
        exact absurd rfl h
      · cases bD
        · -- check_deceleration = some false: the cascade continues
          rw [hD] at h
          replace h : screen_mid t snap ag p m ≠ none := h
          change screen_mid t snap ag p m = _
          unfold screen_mid at h ⊢
          by_cases h2 : ag < 25
          · rw [if_pos h2]
            have hc : all_criteria snap p m = false := by
              simp [all_criteria, crit2, hA, not_le.mpr h2]
            simp [hc]
          · rw [if_neg h2] at h ⊢
            by_cases h3 : p = [] ∨ lastClose p < maxClose p * (95/100)
            · rw [if_pos h3]
              have hc : all_criteria snap p m = false := by
                rcases h3 with h3 | h3
                · simp [all_criteria, crit3, h3]
                · simp [all_criteria, crit3, not_le.mpr h3]
              simp [hc]
            · rw [if_neg h3] at h ⊢
              by_cases h4 : (200000000 : ℤ) < snap.shares_out
              · rw [if_pos h4]
                have hc : all_criteria snap p m = false := by
                  simp [all_criteria, crit4, not_le.mpr h4]
                simp [hc]
              · rw [if_neg h4] at h ⊢
                by_cases h5 : volume_dry_up p = false
                · rw [if_pos h5]
                  have hc : all_criteria snap p m = false := by
                    simp [all_criteria, crit5, h5]
                  simp [hc]
                · rw [if_neg h5] at h ⊢
                  rcases hR : relative_strength p m with _ | bR
                  · rw [hR] at h
                    exact absurd rfl h
                  · cases bR
                    · -- relative_strength = some false
                      change (some none : Option (Option ScreenResult)) = _
                      have hc : all_criteria snap p m = false := by
                        simp [all_criteria, crit6, hR]
                      simp [hc]
                    · -- relative_strength = some true
                      change screen_tail t snap ag p m = _
                      unfold screen_tail
                      by_cases h7 : snap.institutional_own < 30
                      · rw [if_pos h7]
                        have hc : all_criteria snap p m = false := by
                          simp [all_criteria, crit7, not_le.mpr h7]
                        simp [hc]
                      · rw [if_neg h7]
                        by_cases h8 : m = [] ∨ below_200sma m = true
                        · rw [if_pos h8]
                          have hc : all_criteria snap p m = false := by
                            rcases h8 with h8 | h8
                            · simp [all_criteria, crit8, h8]
                            · simp [all_criteria, crit8, h8]
                          simp [hc]
                        · rw [if_neg h8]
                          push_neg at h3 h8
                          have h5' : volume_dry_up p = true := by
                            revert h5; cases volume_dry_up p <;> simp
                          have h8' : below_200sma m = false := by
                            have := h8.2
                            revert this; cases below_200sma m <;> simp
                          have hc : all_criteria snap p m = true := by
                            simp [all_criteria, crit1, crit2, crit3, crit4,
                              crit5, crit6, crit7, crit8, hA, hD, hR, h5',
                              h8', not_lt.mp h1, not_lt.mp h2, h3.1,
                              h3.2, not_lt.mp h4, not_lt.mp h7, h8.1]
                          simp [hc, mk_result, hA]
        · -- check_deceleration = some true: rejected at criterion 1
          change (some none : Option (Option ScreenResult)) = _
          have hc : all_criteria snap p m = false := by
            simp [all_criteria, crit1, hD]
          simp [hc]

/-- Witness for the amended claim C1: a snapshot identical to a passing one
except for 250,000,000 shares outstanding screens, without error, to
"no match" (criterion 4 fails). -/
theorem screen_stock_characterization_witness :
    screen_stock "B" ⟨[10, 20], [10, 15, 20], 250000000, 35⟩
      [⟨100, 10⟩] [⟨100, 5⟩] = some none := by
  have h := screen_stock_characterization "B"
    ⟨[10, 20], [10, 15, 20], 250000000, 35⟩ [⟨100, 10⟩] [⟨100, 5⟩]
    (by with_unfolding_all decide)
  rw [h]
  with_unfolding_all rfl

/-- Claim C2 fails on the code (the spec is the intent): with a non-empty
benchmark of fewer than 200 bars the rolling 200-bar mean is NaN, the
line-122 `<` comparison with NaN is `False`, and the market filter passes
instead of failing closed — a ticker satisfying the other seven criteria is
emitted as a `ScreenResult` rather than rejected. -/
theorem screen_stock_market_filter_fails_open :
    screen_stock "T" ⟨[10, 20], [10, 15, 20], 50000000, 35⟩
      [⟨100, 10⟩, ⟨100, 10⟩, ⟨100, 10⟩, ⟨100, 10⟩, ⟨100, 10⟩]
      [⟨100, 5⟩, ⟨100, 5⟩, ⟨100, 5⟩, ⟨100, 5⟩, ⟨50, 5⟩]
      = some (some ⟨"T", 100, 125/3, 50000000, 35, false⟩) := by
  with_unfolding_all rfl
